import Mathlib

/-!
Verification development for the resume toolkit (`Resume.py`).

This file gives a shallow embedding of the document-generation pipeline and
the AI-edit application logic of the source program, and proves the spec's
claims about them:

* `sanitize_for_latex` (source lines 74-84): the LaTeX escaping pass;
* the section builders (`build_summary_section`, `build_experience_section`,
  `build_education_section`, `build_skills_section`,
  `build_languages_section`, `build_photo_block`, lines 303-399);
* `generate_resume_latex` (lines 433-442), including a model of Python's
  `str.format` placeholder substitution;
* `compile_latex_to_pdf` (lines 401-431), modelled over an abstract
  environment describing the external `pdflatex` tool and the scratch files;
* `apply_ai_edits` (lines 555-571), with Python dict/list semantics made
  explicit (missing keys as `Option`, negative list indices, first-occurrence
  replacement, the initial `copy.deepcopy`).

Python strings are `String`, dicts become structures, absent keys of edit
records become `none`, and statements that can raise `KeyError`/`IndexError`
inside the `try` of `apply_ai_edits` are modelled by the skip behaviour the
`except` clause produces.
-/

/-- Python list subscript `l[i]` with negative-index support: `l[i]` for
`0 ≤ i < len` and `l[len + i]` for `-len ≤ i < 0`; out of range is
`IndexError`, modelled as `none`. -/
def pyGet {α : Type} (l : List α) (i : Int) : Option α :=
  if 0 ≤ i then l.get? i.toNat
  else if 0 ≤ (l.length : Int) + i then l.get? ((l.length : Int) + i).toNat
  else none

/-- Python list subscript assignment `l[i] = a` (only reached in the source
after a successful read at the same index, so the in-range case is the one
that matters). -/
def pySet {α : Type} (l : List α) (i : Int) (a : α) : List α :=
  if 0 ≤ i then l.set i.toNat a
  else l.set ((l.length : Int) + i).toNat a

/-- One scan step of Python `str.replace`: at each position, if the (nonempty)
pattern starts there, emit the replacement and skip the pattern, otherwise
keep the character and move one place.  `fuel` only bounds the recursion; a
call with `fuel = l.length` never exhausts it, since every step consumes at
least one character. -/
def replaceFuel (pat rep : List Char) : Nat → List Char → List Char
  | _, [] => []
  | 0, l => l
  | fuel + 1, c :: rest =>
    if pat ≠ [] ∧ pat.isPrefixOf (c :: rest) then
      rep ++ replaceFuel pat rep fuel (List.drop pat.length (c :: rest))
    else
      c :: replaceFuel pat rep fuel rest

/-- Python `s.replace(pat, rep)` (all non-overlapping occurrences, leftmost
first).  The source only ever calls it with nonempty patterns. -/
def pyReplace (s pat rep : String) : String :=
  ⟨replaceFuel pat.data rep.data s.data.length s.data⟩

/-- The escape table `conv` of `sanitize_for_latex` (source lines 78-82), as
a per-character expansion.  The source compiles the ten keys into one regex
alternation (longest key first — all keys here have length 1) and applies it
in a single non-rescanning `re.sub` pass, which on single-character patterns
is exactly an independent per-character mapping. -/
def latexEscape (c : Char) : List Char :=
  if c = '&' then ['\\', '&']
  else if c = '%' then ['\\', '%']
  else if c = '$' then ['\\', '$']
  else if c = '#' then ['\\', '#']
  else if c = '_' then ['\\', '_']
  else if c = '{' then ['\\', '{']
  else if c = '}' then ['\\', '}']
  else if c = '~' then ("\\textasciitilde\x7b\x7d").data
  else if c = '^' then ("\\textasciicircum\x7b\x7d").data
  else if c = '\\' then ("\\textbackslash\x7b\x7d").data
  else [c]

/-- `sanitize_for_latex` (source lines 74-84): escapes every reserved LaTeX
character in one left-to-right pass.  The `if not text: return ""` guard of
the source coincides with the general path on the empty string. -/
def sanitize_for_latex (text : String) : String :=
  ⟨(text.data.map latexEscape).flatten⟩

/-- The ten reserved LaTeX characters of the `conv` table. -/
def isReserved (c : Char) : Bool :=
  c = '&' || c = '%' || c = '$' || c = '#' || c = '_' ||
  c = '{' || c = '}' || c = '~' || c = '^' || c = '\\'

/-- Strip an expected character sequence from the front of a list; `none`
when the list does not start with it. -/
def stripPrefixChars : List Char → List Char → Option (List Char)
  | [], l => some l
  | _ :: _, [] => none
  | p :: ps, c :: cs => if c = p then stripPrefixChars ps cs else none

/-- After a backslash, recognise the tail of exactly one escape sequence of
the `conv` table and return what follows it; `none` when no escape sequence
starts here. -/
def escTail (l : List Char) : Option (List Char) :=
  match l with
  | [] => none
  | c :: r =>
    if c = '&' || c = '%' || c = '$' || c = '#' || c = '_' || c = '{' || c = '}' then
      some r
    else if c = 't' then
      match stripPrefixChars ("extasciitilde\x7b\x7d").data r with
      | some r2 => some r2
      | none =>
        match stripPrefixChars ("extasciicircum\x7b\x7d").data r with
        | some r2 => some r2
        | none =>
          match stripPrefixChars ("extbackslash\x7b\x7d").data r with
          | some r2 => some r2
          | none => none
    else none

/-- Stripping a prefix never lengthens the list (termination measure for
`wellEscaped`). -/
theorem stripPrefixChars_le : ∀ (p l r : List Char),
    stripPrefixChars p l = some r → r.length ≤ l.length := by
  intro p
  induction p with
  | nil =>
    intro l r h
    simp [stripPrefixChars] at h
    subst h
    exact Nat.le_refl _
  | cons x xs ih =>
    intro l r h
    cases l with
    | nil => simp [stripPrefixChars] at h
    | cons c cs =>
      simp [stripPrefixChars] at h
      exact Nat.le_trans (ih cs r h.2) (Nat.le_succ _)

/-- Consuming an escape tail strictly shortens the list (termination measure
for `wellEscaped`). -/
theorem escTail_lt (l r : List Char) (h : escTail l = some r) :
    r.length < l.length := by
  cases l with
  | nil => simp [escTail] at h
  | cons c cs =>
    simp only [escTail] at h
    by_cases h1 :
        (c = '&' || c = '%' || c = '$' || c = '#' || c = '_' || c = '{' || c = '}') = true
    · rw [if_pos h1] at h
      injection h with h
      subst h
      simp
    · rw [if_neg h1] at h
      by_cases h2 : c = 't'
      · rw [if_pos h2] at h
        rcases hs1 : stripPrefixChars ("extasciitilde\x7b\x7d").data cs with _ | r1 <;>
          rw [hs1] at h
        · rcases hs2 : stripPrefixChars ("extasciicircum\x7b\x7d").data cs with _ | r2 <;>
            rw [hs2] at h
          · rcases hs3 : stripPrefixChars ("extbackslash\x7b\x7d").data cs with _ | r3 <;>
              rw [hs3] at h
            · simp at h
            · injection h with h
              subst h
              exact Nat.lt_succ_of_le (stripPrefixChars_le _ _ _ hs3)
          · injection h with h
            subst h
            exact Nat.lt_succ_of_le (stripPrefixChars_le _ _ _ hs2)
        · injection h with h
          subst h
          exact Nat.lt_succ_of_le (stripPrefixChars_le _ _ _ hs1)
      · rw [if_neg h2] at h
        simp at h

/-- Greedy recogniser for "fully escaped" text: the string is a sequence of
non-reserved characters and complete escape sequences from the `conv` table.
A reserved character standing anywhere else (in particular a backslash that
does not begin an escape sequence) is an unescaped occurrence and is
rejected. -/
def wellEscaped : List Char → Bool
  | [] => true
  | c :: rest =>
    if c = '\\' then
      match h : escTail rest with
      | none => false
      | some r => wellEscaped r
    else !(isReserved c) && wellEscaped rest
termination_by l => l.length
decreasing_by
  · rename_i rest hbs
    have := escTail_lt rest r h
    simp
    omega
  · simp

/-- The `contact` sub-dict of a resume profile (keys produced by
`get_contact_info`, source line 182).  An unset `photo_path` is the empty
string (falsy, exactly as the source tests it). -/
structure Contact where
  full_name : String
  email : String
  phone : String
  linkedin : String
  photo_path : String
deriving Repr, DecidableEq

/-- One entry of the `experience` list (source line 198). -/
structure ExperienceEntry where
  title : String
  company : String
  location : String
  dates : String
  accomplishments : List String
deriving Repr, DecidableEq

/-- One entry of the `education` list (source line 205). -/
structure EducationEntry where
  institution : String
  degree : String
  location : String
  dates : String
deriving Repr, DecidableEq

/-- The `skills` dict (source line 211); an absent or empty dict is the pair
of empty lists, matching the source's falsy checks. -/
structure Skills where
  technical : List String
  professional : List String
deriving Repr, DecidableEq

/-- A resume profile.  Every string field defaults to empty rather than
absent; absent lists are empty lists, giving the same observable behaviour
as the source's `.get(..., default)` / `KeyError`-and-skip accesses. -/
structure ResumeProfile where
  contact : Contact
  summary : String
  experience : List ExperienceEntry
  education : List EducationEntry
  skills : Skills
  languages : List String
deriving Repr, DecidableEq

/-- A suggested edit record coming back from the AI as JSON.  Each key may be
missing, which the source surfaces as a `KeyError` caught by the
`except` clause of `apply_ai_edits`; hence every field is an `Option`.
`sectionKey` is the record's `'section'` key (`section` is a Lean keyword). -/
structure SuggestedEdit where
  sectionKey : Option String
  entry_index : Option Int
  field : Option String
  original_text : Option String
  suggested_text : Option String
deriving Repr, DecidableEq

/-- `copy.deepcopy` on a profile (source line 557): rebuilds the whole
structure, so the copy shares no mutable container with the original. -/
def ResumeProfile.deepcopy (p : ResumeProfile) : ResumeProfile where
  contact :=
    { full_name := p.contact.full_name
      email := p.contact.email
      phone := p.contact.phone
      linkedin := p.contact.linkedin
      photo_path := p.contact.photo_path }
  summary := p.summary
  experience := p.experience.map fun e =>
    { title := e.title
      company := e.company
      location := e.location
      dates := e.dates
      accomplishments := e.accomplishments.map id }
  education := p.education.map fun e =>
    { institution := e.institution
      degree := e.degree
      location := e.location
      dates := e.dates }
  skills :=
    { technical := p.skills.technical.map id
      professional := p.skills.professional.map id }
  languages := p.languages.map id

/-- `accomplishments[accomplishments.index(orig)] = sugg` given
`orig in accomplishments` (source line 568): replace the first occurrence. -/
def replaceFirst : List String → String → String → List String
  | [], _, _ => []
  | x :: xs, orig, sugg =>
    if x = orig then sugg :: xs else x :: replaceFirst xs orig sugg

/-- The body of the `for edit in edits` loop of `apply_ai_edits` (source
lines 558-570), acting on `editable_resume`.  Any missing key or
out-of-range index takes the `except (KeyError, IndexError)` path, which
leaves the profile unchanged and moves on.  Python evaluates the right-hand
side of an assignment before the assignment itself, so a missing
`'suggested_text'` key aborts the edit before anything is written. -/
def applyEdit (editable_resume : ResumeProfile) (edit : SuggestedEdit) :
    ResumeProfile :=
  match edit.sectionKey with
  | none => editable_resume
  | some s =>
    if s = "summary" then
      match edit.original_text, edit.suggested_text with
      | some orig, some sugg =>
        if editable_resume.summary = orig then
          { editable_resume with summary := sugg }
        else editable_resume
      | _, _ => editable_resume
    else if s = "experience" then
      match edit.entry_index with
      | none => editable_resume
      | some i =>
        match pyGet editable_resume.experience i with
        | none => editable_resume
        | some entry =>
          match edit.original_text with
          | none => editable_resume
          | some orig =>
            if orig ∈ entry.accomplishments then
              match edit.suggested_text with
              | none => editable_resume
              | some sugg =>
                { editable_resume with
                    experience := pySet editable_resume.experience i
                      { entry with
                          accomplishments :=
                            replaceFirst entry.accomplishments orig sugg } }
            else editable_resume
    else editable_resume

/-- `apply_ai_edits` (source lines 555-571): deep-copy the profile, then fold
the edit list over the copy and return it. -/
def apply_ai_edits (resume_data : ResumeProfile) (edits : List SuggestedEdit) :
    ResumeProfile :=
  edits.foldl applyEdit resume_data.deepcopy

/-- The two live objects during a run of `apply_ai_edits`: the caller's
`resume_data` and the working copy `editable_resume`.  This makes the heap of
the source explicit: after `copy.deepcopy` the two share no container, and
every assignment in the loop targets `editable_resume`. -/
structure EditSession where
  resume_data : ResumeProfile
  editable_resume : ResumeProfile
deriving Repr, DecidableEq

/-- One loop iteration of `apply_ai_edits` as a transition on the heap model:
only `editable_resume` is written. -/
def applyEditStep (st : EditSession) (edit : SuggestedEdit) : EditSession :=
  { st with editable_resume := applyEdit st.editable_resume edit }

/-- `apply_ai_edits` as a run over the heap model, keeping both objects in
view so that non-mutation of the input is a statement, not a convention. -/
def apply_ai_edits_tracked (resume_data : ResumeProfile)
    (edits : List SuggestedEdit) : EditSession :=
  edits.foldl applyEditStep
    { resume_data := resume_data, editable_resume := resume_data.deepcopy }

/-- `build_summary_section` (source lines 303-309). -/
def build_summary_section (data : ResumeProfile) : String :=
  if data.summary = "" then ""
  else
    "\\section*\x7bSummary\x7d\n" ++ sanitize_for_latex data.summary ++
      "\\vspace\x7b10pt\x7d\n"

/-- The `title` value embedded by `build_experience_section`: sanitized, then
the source additionally rewrites the backslash escape to `/`
(source lines 319 and 325). -/
def expEmbeddedTitle (entry : ExperienceEntry) : String :=
  pyReplace (sanitize_for_latex entry.title) ("\\textbackslash\x7b\x7d") ("/")

/-- The `dates` value embedded by `build_experience_section` (line 320). -/
def expEmbeddedDates (entry : ExperienceEntry) : String :=
  sanitize_for_latex entry.dates

/-- The `company` value embedded by `build_experience_section` (line 321). -/
def expEmbeddedCompany (entry : ExperienceEntry) : String :=
  sanitize_for_latex entry.company

/-- The `location` value embedded by `build_experience_section` (line 322). -/
def expEmbeddedLocation (entry : ExperienceEntry) : String :=
  sanitize_for_latex entry.location

/-- An accomplishment as embedded by `build_experience_section`: sanitized,
then the source rewrites the backslash-escape-plus-percent-escape back to a
plain percent escape (source line 334). -/
def expEmbeddedAcc (acc : String) : String :=
  pyReplace (sanitize_for_latex acc) ("\\textbackslash\x7b\x7d\\%") ("\\%")

/-- The `tabular*` header block appended per experience entry (source
line 327), with the f-string's `{{`/`}}` already collapsed to literal
braces. -/
def expTabular (entry : ExperienceEntry) : String :=
  "  \\item\n    \\begin\x7btabular*\x7d\x7b\\textwidth\x7d\x7b@\x7b\\extracolsep\x7b\\fill\x7d\x7dl r\x7d\n      \\textbf\x7b\\large "
    ++ expEmbeddedTitle entry
    ++ "\x7d & \x7b\\small "
    ++ expEmbeddedDates entry
    ++ "\x7d \\\\\n      \\textit\x7b\\small "
    ++ expEmbeddedCompany entry
    ++ "\x7d & \\textit\x7b\\small "
    ++ expEmbeddedLocation entry
    ++ "\x7d \\\\\n    \\end\x7btabular*\x7d\\vspace\x7b-2pt\x7d\n"

/-- The inner `itemize` of accomplishments appended per experience entry
(source lines 329-336); empty when the entry has no accomplishments. -/
def expAccBlock (entry : ExperienceEntry) : String :=
  if entry.accomplishments.isEmpty then ""
  else
    (entry.accomplishments.foldl
      (fun acc a => acc ++ ("      \\item \\small\x7b" ++ expEmbeddedAcc a ++ "\x7d\n"))
      ("    \\begin\x7bitemize\x7d[leftmargin=0.2in, topsep=0pt, itemsep=-2pt]\n"))
    ++ "    \\end\x7bitemize\x7d\n"

/-- Everything one iteration of the entry loop of `build_experience_section`
appends for `entry` (lines 318-336). -/
def renderExperienceEntry (entry : ExperienceEntry) : String :=
  expTabular entry ++ expAccBlock entry

/-- `build_experience_section` (source lines 313-338). -/
def build_experience_section (data : ResumeProfile) : String :=
  if data.experience.isEmpty then ""
  else
    (data.experience.foldl (fun acc entry => acc ++ renderExperienceEntry entry)
      ("\\section*\x7bProfessional Experience\x7d\n\\begin\x7bitemize\x7d[leftmargin=0.15in, label=\x7b\x7d]\n"))
    ++ "\\end\x7bitemize\x7d\n\n"

/-- Everything one iteration of the entry loop of `build_education_section`
appends for `entry` (source line 345). -/
def renderEducationEntry (entry : EducationEntry) : String :=
  "  \\item\n    \\begin\x7btabular*\x7d\x7b\\textwidth\x7d\x7b@\x7b\\extracolsep\x7b\\fill\x7d\x7dl r\x7d\n      \\textbf\x7b\\large "
    ++ sanitize_for_latex entry.institution
    ++ "\x7d & \x7b\\small "
    ++ sanitize_for_latex entry.dates
    ++ "\x7d \\\\\n      \\textit\x7b\\small "
    ++ sanitize_for_latex entry.degree
    ++ "\x7d & \\textit\x7b\\small "
    ++ sanitize_for_latex entry.location
    ++ "\x7d \\\\\n    \\end\x7btabular*\x7d\\vspace\x7b-2pt\x7d\n"

/-- `build_education_section` (source lines 340-347). -/
def build_education_section (data : ResumeProfile) : String :=
  if data.education.isEmpty then ""
  else
    (data.education.foldl (fun acc entry => acc ++ renderEducationEntry entry)
      ("\\section*\x7bEducation\x7d\n\\begin\x7bitemize\x7d[leftmargin=0.15in, label=\x7b\x7d]\n"))
    ++ "\\end\x7bitemize\x7d\n\n"

/-- `clean_skill` (source lines 360-364): rewrites the literal text
`\textbackslash{}\&` to ` & ` first, then sanitizes. -/
def clean_skill (skill : String) : String :=
  sanitize_for_latex (pyReplace skill ("\\textbackslash\x7b\x7d\\&") (" & "))

/-- `build_skills_section` (source lines 350-383). -/
def build_skills_section (data : ResumeProfile) : String :=
  let tech_skills := data.skills.technical
  let prof_skills := data.skills.professional
  if tech_skills.isEmpty && prof_skills.isEmpty then ""
  else
    let tech_col_width := if !tech_skills.isEmpty && !prof_skills.isEmpty then "0.5" else "1.0"
    let prof_col_width := if !tech_skills.isEmpty && !prof_skills.isEmpty then "0.5" else "1.0"
    let s0 := "\\section*\x7bSkills\x7d\n\\noindent\n"
    let s1 :=
      if !tech_skills.isEmpty then
        let s1a := tech_skills.foldl
          (fun acc skill => acc ++ ("            \\item " ++ clean_skill skill ++ "\n"))
          (s0 ++ "\\begin\x7bminipage\x7d[t]\x7b" ++ tech_col_width ++ "\\textwidth\x7d\n    \\begin\x7bitemize\x7d[leftmargin=0.15in, label=\x7b\x7d, noitemsep, topsep=0pt]\n        \\item \\textbf\x7bTechnical Skills\x7d\n        \\begin\x7bitemize\x7d[leftmargin=0.2in, topsep=2pt, itemsep=-2pt]\n")
        let s1b := s1a ++ "        \\end\x7bitemize\x7d\n    \\end\x7bitemize\x7d\n\\end\x7bminipage\x7d"
        if !prof_skills.isEmpty then s1b ++ "%\n" else s1b
      else s0
    if !prof_skills.isEmpty then
      (prof_skills.foldl
        (fun acc skill => acc ++ ("            \\item " ++ clean_skill skill ++ "\n"))
        (s1 ++ "\\begin\x7bminipage\x7d[t]\x7b" ++ prof_col_width ++ "\\textwidth\x7d\n    \\begin\x7bitemize\x7d[leftmargin=0.15in, label=\x7b\x7d, noitemsep, topsep=0pt]\n        \\item \\textbf\x7bProfessional Skills\x7d\n        \\begin\x7bitemize\x7d[leftmargin=0.2in, topsep=2pt, itemsep=-2pt]\n"))
      ++ "        \\end\x7bitemize\x7d\n    \\end\x7bitemize\x7d\n\\end\x7bminipage\x7d\n\n"
    else s1

/-- `build_languages_section` (source lines 385-390). -/
def build_languages_section (data : ResumeProfile) : String :=
  if data.languages.isEmpty then ""
  else
    (data.languages.foldl
      (fun acc lang => acc ++ ("    \\item " ++ sanitize_for_latex lang ++ "\n"))
      ("\\section*\x7bLanguages\x7d\n\\begin\x7bitemize\x7d[leftmargin=0.15in, topsep=0pt]\n"))
    ++ "\\end\x7bitemize\x7d\n"

/-- `os.path.basename` for forward-slash paths: the text after the last
separator. -/
def pyBasename (path : String) : String :=
  ⟨path.data.foldl (fun acc c => if c = '/' then [] else acc ++ [c]) []⟩

/-- `build_photo_block` (source lines 391-399).  The filesystem probe
`os.path.exists(photo_path)` and the `shutil.copy` side effect are external;
the probe's answer enters as `photoExists`. -/
def build_photo_block (photoExists : Bool) (data : ResumeProfile) : String :=
  if data.contact.photo_path ≠ "" ∧ photoExists then
    "\\includegraphics[width=0.8\\textwidth]\x7b"
      ++ pyReplace (pyBasename data.contact.photo_path) ("\\") ("/") ++ "\x7d"
  else ""

/-- A parsed item of a Python format string: a literal character or a
replacement field `{NAME}`. -/
inductive FmtItem where
  | lit : Char → FmtItem
  | fieldRef : String → FmtItem
deriving Repr, DecidableEq

/-- Parser for Python `str.format` templates, specialised to the bare-name
placeholders the source's templates use.  The first argument is `some acc`
(reversed name so far) while inside a replacement field.  `{{` and `}}` are
brace escapes; an unmatched `}` or an unterminated `{` is a `ValueError`,
modelled as `none`.  Conversion/format-spec suffixes (`!r`, `:spec`) are not
modelled; the fixed placeholder sets of §6 contain none. -/
def parseFmtA : Option (List Char) → List Char → Option (List FmtItem)
  | none, [] => some []
  | some _, [] => none
  | none, '{' :: '{' :: rest2 =>
    (parseFmtA none rest2).map (fun items => FmtItem.lit '{' :: items)
  | none, '{' :: rest => parseFmtA (some []) rest
  | none, '}' :: '}' :: rest2 =>
    (parseFmtA none rest2).map (fun items => FmtItem.lit '}' :: items)
  | none, '}' :: _ => none
  | none, c :: rest =>
    (parseFmtA none rest).map (fun items => FmtItem.lit c :: items)
  | some acc, c :: rest =>
    if c = '}' then
      (parseFmtA none rest).map (fun items => FmtItem.fieldRef ⟨acc.reverse⟩ :: items)
    else if c = '{' then none
    else parseFmtA (some (c :: acc)) rest

/-- Substitution phase of `str.format`: a field whose name is not a key of
the mapping raises `KeyError`, modelled as `none`. -/
def renderFmt : List FmtItem → (String → Option String) → Option String
  | [], _ => some ("")
  | FmtItem.lit c :: rest, m =>
    (renderFmt rest m).map (fun s => ⟨c :: s.data⟩)
  | FmtItem.fieldRef name :: rest, m =>
    match m name with
    | none => none
    | some v => (renderFmt rest m).map (fun s => v ++ s)

/-- Python `template.format(**mapping)`: parse, then substitute.  `none` is
an uncaught `ValueError`/`KeyError`/`IndexError` from `format`. -/
def pyFormat (template : String) (m : String → Option String) : Option String :=
  match parseFmtA none template.data with
  | none => none
  | some items => renderFmt items m

/-- The `linkedin_display` local of `generate_resume_latex` (source
line 440). -/
def linkedin_display (contact : Contact) : String :=
  pyReplace (pyReplace contact.linkedin ("https://www.") ("")) ("http://www.") ("")

/-- The `placeholders` dict of `generate_resume_latex` (source line 441), as
a partial mapping from placeholder name to value. -/
def resumePlaceholders (photoExists : Bool) (data : ResumeProfile) :
    String → Option String := fun name =>
  if name = "FULL_NAME" then some (sanitize_for_latex data.contact.full_name)
  else if name = "EMAIL" then some (sanitize_for_latex data.contact.email)
  else if name = "PHONE" then some (sanitize_for_latex data.contact.phone)
  else if name = "LINKEDIN" then some (sanitize_for_latex data.contact.linkedin)
  else if name = "LINKEDIN_DISPLAY" then
    some (sanitize_for_latex (linkedin_display data.contact))
  else if name = "SUMMARY_SECTION" then some (build_summary_section data)
  else if name = "EXPERIENCE_SECTION" then some (build_experience_section data)
  else if name = "EDUCATION_SECTION" then some (build_education_section data)
  else if name = "SKILLS_SECTION" then some (build_skills_section data)
  else if name = "LANGUAGES_SECTION" then some (build_languages_section data)
  else if name = "PHOTO_BLOCK" then some (build_photo_block photoExists data)
  else none

/-- `generate_resume_latex` (source lines 433-442), from the point where the
template file's text is in hand (template lookup and file reading are
external; a missing file is reported before ever reaching the substitution
step).  `none` means the `template_string.format(**placeholders)` call
raised. -/
def generate_resume_latex (data : ResumeProfile) (template_string : String)
    (photoExists : Bool) : Option String :=
  pyFormat template_string (resumePlaceholders photoExists data)

/-- Which of the scratch/output files `FILENAME_BASE.{tex,pdf,aux,log}` exist
in the output directory. -/
structure TexFiles where
  tex : Bool
  pdf : Bool
  aux : Bool
  log : Bool
deriving Repr, DecidableEq

/-- No files present. -/
def TexFiles.empty : TexFiles :=
  { tex := false, pdf := false, aux := false, log := false }

/-- Environment of one `compile_latex_to_pdf` call: whether `pdflatex` is on
the path, whether the scratch `.tex` write succeeds, and for each of the two
tool invocations its exit status, its captured stderr and the files present
after it ran. -/
structure LatexEnv where
  pdflatex_found : Bool
  tex_write_ok : Bool
  run1_ok : Bool
  files_after_run1 : TexFiles
  stderr1 : String
  run2_ok : Bool
  files_after_run2 : TexFiles
  stderr2 : String
deriving Repr, DecidableEq

/-- Observable outcome of `compile_latex_to_pdf`: the Python return value,
the files left in the output directory, and the compiler stderr surfaced to
the user (the panel printed on `CalledProcessError`, source lines 422-423). -/
structure CompileOutcome where
  returned : Option String
  files : TexFiles
  reported_stderr : Option String
deriving Repr, DecidableEq

/-- The `finally` block of `compile_latex_to_pdf` (source lines 425-431): it
removes `FILENAME_BASE + ext` for `ext in [".aux", ".log"]` whenever present
— on the success path and on the failure path alike. -/
def cleanupAux (fs : TexFiles) : TexFiles :=
  { fs with aux := false, log := false }

/-- `compile_latex_to_pdf` (source lines 401-431).  Missing tool → skip with
no files touched (lines 402-404); failed `.tex` write → early return
(line 408); then two `check=True` invocations, where a non-zero exit raises
`CalledProcessError`, prints the captured stderr and returns `None`
(lines 418-424); the `finally` cleanup runs on every path. -/
def compile_latex_to_pdf (env : LatexEnv) (filename_base : String) :
    CompileOutcome :=
  if !env.pdflatex_found then
    { returned := none, files := TexFiles.empty, reported_stderr := none }
  else if !env.tex_write_ok then
    { returned := none, files := TexFiles.empty, reported_stderr := none }
  else if !env.run1_ok then
    { returned := none
      files := cleanupAux { env.files_after_run1 with tex := true }
      reported_stderr := if env.stderr1 ≠ "" then some env.stderr1 else none }
  else if !env.run2_ok then
    { returned := none
      files := cleanupAux { env.files_after_run2 with tex := true }
      reported_stderr := if env.stderr2 ≠ "" then some env.stderr2 else none }
  else
    { returned := some (filename_base ++ ".pdf")
      files := cleanupAux { env.files_after_run2 with tex := true }
      reported_stderr := none }

/-- Boolean prefix test on character lists (used below to state that a
sanitizer output does or does not occur inside a rendered fragment). -/
def isPrefixList : List Char → List Char → Bool
  | [], _ => true
  | _ :: _, [] => false
  | a :: as, b :: bs => a == b && isPrefixList as bs

/-- Substring occurrence test on character lists. -/
def containsSub (pat : List Char) : List Char → Bool
  | [] => isPrefixList pat []
  | c :: rest => isPrefixList pat (c :: rest) || containsSub pat rest

/-- Whether an edit's `original_text` matches the content it targets in
profile `p`: the summary for a `summary` edit, or an element of the indexed
entry's accomplishments for an `experience` edit (the condition of lines 562
and 567 of the source). -/
def editMatches (p : ResumeProfile) (e : SuggestedEdit) : Bool :=
  (e.sectionKey == some ("summary") && e.original_text == some p.summary) ||
  (e.sectionKey == some ("experience") &&
    match e.entry_index with
    | none => false
    | some i =>
      match pyGet p.experience i with
      | none => false
      | some entry =>
        match e.original_text with
        | none => false
        | some orig => entry.accomplishments.contains orig)

/-- The skip conditions of claim C4: a section value that is neither
`summary` nor `experience` (or a missing `section` key), an `entry_index`
that Python list indexing rejects (`IndexError`), or a missing required key
of the edit record (`KeyError`). -/
def edit_malformed_or_mistargeted (p : ResumeProfile) (e : SuggestedEdit) :
    Bool :=
  match e.sectionKey with
  | none => true
  | some s =>
    if s = "summary" then
      e.original_text.isNone || e.suggested_text.isNone
    else if s = "experience" then
      e.original_text.isNone || e.suggested_text.isNone ||
        (match e.entry_index with
         | none => true
         | some i => (pyGet p.experience i).isNone)
    else true

/-- A small concrete contact record used by the concrete witnesses below. -/
def exampleContact : Contact :=
  { full_name := "Jane Roe"
    email := "jane@example.com"
    phone := "555-0100"
    linkedin := "https://www.linkedin.com/in/janeroe"
    photo_path := "" }

/-- A small concrete experience entry used by the concrete witnesses below. -/
def exampleEntry : ExperienceEntry :=
  { title := "Engineer"
    company := "Acme"
    location := "Remote"
    dates := "2020 -- 2024"
    accomplishments := ["Built X", "Led Y"] }

/-- A small concrete profile used by the concrete witnesses below. -/
def exampleProfile : ResumeProfile :=
  { contact := exampleContact
    summary := "Old summary"
    experience := [exampleEntry]
    education := []
    skills := { technical := [], professional := [] }
    languages := [] }

/-- The structural copy is deeply equal to its source. -/
theorem deepcopy_eq (p : ResumeProfile) : p.deepcopy = p := by
  simp [ResumeProfile.deepcopy]

/-- `String.join` distributes over cons. -/
theorem string_join_cons (s : String) (l : List String) :
    String.join (s :: l) = s ++ String.join l := by
  apply String.ext
  simp [String.join_eq, String.data_append]

/-- `String.join` distributes over append. -/
theorem string_join_append (l₁ l₂ : List String) :
    String.join (l₁ ++ l₂) = String.join l₁ ++ String.join l₂ := by
  apply String.ext
  simp [String.join_eq, String.data_append]

/-- A string-accumulating `foldl` is the seed followed by the joined pieces;
this is the bridge between the source's `+=` loops and per-entry blocks. -/
theorem foldl_append_eq_join {α : Type} (f : α → String) (l : List α) :
    ∀ init : String,
      l.foldl (fun acc x => acc ++ f x) init = init ++ String.join (l.map f) := by
  induction l with
  | nil =>
    intro init
    simp [String.join]
  | cons x xs ih =>
    intro init
    rw [List.foldl_cons, ih, List.map_cons, string_join_cons, String.append_assoc]

/-- A non-reserved character is consumed as itself by the recogniser. -/
theorem wellEscaped_cons_plain (c : Char) (h : isReserved c = false)
    (out : List Char) : wellEscaped (c :: out) = wellEscaped out := by
  have hc : c ≠ '\\' := by
    intro e
    subst e
    simp [isReserved] at h
  simp [wellEscaped, hc, h]

/-- Prepending the escape expansion of any character preserves the
recogniser's verdict: each of the ten escape sequences is consumed whole, and
a plain character passes through. -/
theorem wellEscaped_append_escape (c : Char) (out : List Char) :
    wellEscaped (latexEscape c ++ out) = wellEscaped out := by
  by_cases h1 : c = '&'
  · subst h1; simp [latexEscape, wellEscaped, escTail]
  by_cases h2 : c = '%'
  · subst h2; simp [latexEscape, wellEscaped, escTail]
  by_cases h3 : c = '$'
  · subst h3; simp [latexEscape, wellEscaped, escTail]
  by_cases h4 : c = '#'
  · subst h4; simp [latexEscape, wellEscaped, escTail]
  by_cases h5 : c = '_'
  · subst h5; simp [latexEscape, wellEscaped, escTail]
  by_cases h6 : c = '{'
  · subst h6; simp [latexEscape, wellEscaped, escTail]
  by_cases h7 : c = '}'
  · subst h7; simp [latexEscape, wellEscaped, escTail]
  by_cases h8 : c = '~'
  · subst h8; simp [latexEscape, wellEscaped, escTail, stripPrefixChars]
  by_cases h9 : c = '^'
  · subst h9; simp [latexEscape, wellEscaped, escTail, stripPrefixChars]
  by_cases h10 : c = '\\'
  · subst h10; simp [latexEscape, wellEscaped, escTail, stripPrefixChars]
  have hres : isReserved c = false := by
    simp [isReserved, h1, h2, h3, h4, h5, h6, h7, h8, h9, h10]
  have hesc : latexEscape c = [c] := by
    simp [latexEscape, h1, h2, h3, h4, h5, h6, h7, h8, h9, h10]
  rw [hesc]
  exact wellEscaped_cons_plain c hres out

/-- The sanitizer's whole output passes the recogniser, character block by
character block. -/
theorem sanitize_wellEscaped_aux :
    ∀ l : List Char, wellEscaped ((l.map latexEscape)).flatten = true := by
  intro l
  induction l with
  | nil => simp [wellEscaped]
  | cons c t ih =>
    rw [List.map_cons, List.flatten_cons, wellEscaped_append_escape]
    exact ih

/-- A malformed or mistargeted edit (claim C4's conditions) leaves the
profile untouched: every such edit takes either a no-op branch or the
`except (KeyError, IndexError)` path of the source. -/
theorem applyEdit_skip_malformed (p : ResumeProfile) (e : SuggestedEdit)
    (h : edit_malformed_or_mistargeted p e = true) : applyEdit p e = p := by
  unfold edit_malformed_or_mistargeted at h
  unfold applyEdit
  cases hs : e.sectionKey with
  | none => rfl
  | some s =>
    rw [hs] at h
    by_cases h1 : s = "summary"
    · subst h1
      simp only [if_pos rfl] at h ⊢
      rcases ho : e.original_text with _ | orig
      · simp [ho]
      · rcases ht : e.suggested_text with _ | sugg
        · simp [ho, ht]
        · simp [ho, ht] at h
    · by_cases h2 : s = "experience"
      · subst h2
        simp only [if_neg h1, if_pos rfl] at h ⊢
        rcases hi : e.entry_index with _ | i
        · simp [hi]
        · rcases hg : pyGet p.experience i with _ | entry
          · simp [hi, hg]
          · rcases ho : e.original_text with _ | orig
            · simp [hi, hg, ho]
            · rcases ht : e.suggested_text with _ | sugg
              · simp [hi, hg, ho, ht]
              · simp [hi, hg, ho, ht] at h
      · simp [h1, h2]

/-- An edit whose `original_text` does not match the targeted content leaves
the profile untouched (covers mismatches as well as absent targets). -/
theorem applyEdit_no_match (p : ResumeProfile) (e : SuggestedEdit)
    (h : editMatches p e = false) : applyEdit p e = p := by
  unfold editMatches at h
  unfold applyEdit
  cases hs : e.sectionKey with
  | none => rfl
  | some s =>
    rw [hs] at h
    by_cases h1 : s = "summary"
    · subst h1
      simp at h
      simp only [if_pos rfl]
      rcases ho : e.original_text with _ | orig
      · simp
      · rcases ht : e.suggested_text with _ | sugg
        · simp
        · rw [ho] at h
          simp at h
          simp [Ne.symm h]
    · by_cases h2 : s = "experience"
      · subst h2
        simp at h
        simp only [if_neg h1, if_pos rfl]
        rcases hi : e.entry_index with _ | i
        · simp
        · rcases hg : pyGet p.experience i with _ | entry
          · simp [hg]
          · rcases ho : e.original_text with _ | orig
            · simp [hg, ho]
            · rw [hi] at h
              simp [hg, ho] at h
              simp [hg, ho, h]
      · simp [h1, h2]

/-- Folding the loop over the heap model never writes `resume_data`; the
whole run acts on `editable_resume` alone. -/
theorem foldl_applyEditStep (es : List SuggestedEdit) :
    ∀ st : EditSession,
      es.foldl applyEditStep st =
        { resume_data := st.resume_data,
          editable_resume := es.foldl applyEdit st.editable_resume } := by
  induction es with
  | nil => intro st; rfl
  | cons e rest ih =>
    intro st
    rw [List.foldl_cons, List.foldl_cons, ih]
    rfl

/-- Python assignment at index `-1` writes the last position. -/
theorem pySet_neg_one {α : Type} (l : List α) (a : α) :
    pySet l (-1) a = l.set (l.length - 1) a := by
  unfold pySet
  rw [if_neg (by decide)]
  congr 1
  omega

/-- Python subscript `-1` reads the last element of a nonempty list. -/
theorem pyGet_neg_one {α : Type} (l : List α) (h : l ≠ []) :
    pyGet l (-1) = some (l.getLast h) := by
  unfold pyGet
  have hl : 0 < l.length := List.length_pos.mpr h
  rw [if_neg (by decide), if_pos (by omega)]
  have ht : ((l.length : Int) + -1).toNat = l.length - 1 := by omega
  rw [ht]
  rw [List.getLast_eq_get]
  exact List.get?_eq_get _

/-- If any replacement field of the parsed template is missing from the
mapping, the whole substitution raises (`KeyError`), regardless of the other
fields. -/
theorem renderFmt_missing :
    ∀ (items : List FmtItem) (m : String → Option String) (name : String),
      FmtItem.fieldRef name ∈ items → m name = none → renderFmt items m = none := by
  intro items
  induction items with
  | nil =>
    intro m name hmem _
    simp at hmem
  | cons it rest ih =>
    intro m name hmem hmiss
    rcases List.mem_cons.1 hmem with heq | htail
    · rw [← heq]
      simp [renderFmt, hmiss]
    · cases it with
      | lit c => simp [renderFmt, ih m name htail hmiss]
      | fieldRef n =>
        simp only [renderFmt]
        cases hmn : m n with
        | none => rfl
        | some v =>
          rw [ih m name htail hmiss]
          rfl

/-- Claim C1: for a summary edit with both texts present, `apply_ai_edits`
sets the result's summary to `suggested_text` exactly when the profile's
current summary equals `original_text` byte for byte, and leaves the summary
unchanged (the edit is skipped) when they differ. -/
theorem apply_ai_edits_summary_exact_match (p : ResumeProfile)
    (e : SuggestedEdit) (orig sugg : String)
    (hs : e.sectionKey = some ("summary"))
    (ho : e.original_text = some orig)
    (ht : e.suggested_text = some sugg) :
    (apply_ai_edits p [e]).summary =
      if p.summary = orig then sugg else p.summary := by
  unfold apply_ai_edits
  rw [deepcopy_eq, List.foldl_cons, List.foldl_nil]
  unfold applyEdit
  by_cases hm : p.summary = orig
  · simp [hs, ho, ht, hm]
  · simp [hs, ho, ht, hm]

/-- Witness for C1 at the spec's own example: profile summary
`"Old summary"`, edit from `"Old summary"` to `"New summary"`. -/
theorem apply_ai_edits_summary_exact_match_witness :
    (apply_ai_edits exampleProfile
        [{ sectionKey := some ("summary"), entry_index := some 0,
           field := some ("summary"), original_text := some ("Old summary"),
           suggested_text := some ("New summary") }]).summary = "New summary" := by
  have h := apply_ai_edits_summary_exact_match exampleProfile
    { sectionKey := some ("summary"), entry_index := some 0,
      field := some ("summary"), original_text := some ("Old summary"),
      suggested_text := some ("New summary") }
    ("Old summary") ("New summary") rfl rfl rfl
  rw [h]
  decide

/-- Claim C2: `apply_ai_edits` never mutates its input.  In the heap model
the caller's `resume_data` is unchanged by the whole run — for any profile
and any edit list, matching, mismatching or malformed — and everything
happens on the independently returned deep copy. -/
theorem apply_ai_edits_no_input_mutation (p : ResumeProfile)
    (edits : List SuggestedEdit) :
    (apply_ai_edits_tracked p edits).resume_data = p ∧
    (apply_ai_edits_tracked p edits).editable_resume = apply_ai_edits p edits := by
  unfold apply_ai_edits_tracked apply_ai_edits
  rw [foldl_applyEditStep]
  exact ⟨rfl, rfl⟩

/-- A failing compilation environment: the tool is installed, the scratch
write succeeds, the first `pdflatex` run exits non-zero after producing
`.aux` and `.log`, with captured stderr. -/
def envCompileFail : LatexEnv :=
  { pdflatex_found := true
    tex_write_ok := true
    run1_ok := false
    files_after_run1 := { tex := true, pdf := false, aux := true, log := true }
    stderr1 := "! Undefined control sequence."
    run2_ok := true
    files_after_run2 := TexFiles.empty
    stderr2 := "" }

/-- Claim C3 (code bug): when `pdflatex` exits non-zero,
`compile_latex_to_pdf` returns failure (`None`) with the captured stderr
reported, and the scratch `.tex` survives — but the `finally` block (source
lines 426-431) deletes the `.log` file too, even though the error branch has
just told the user to check that very log.  This theorem evaluates the
embedding at such a failing environment: the `.log` is gone. -/
theorem compile_latex_failure_deletes_log :
    (compile_latex_to_pdf envCompileFail ("resume_Jane_Roe")).returned = none ∧
    (compile_latex_to_pdf envCompileFail ("resume_Jane_Roe")).reported_stderr =
      some ("! Undefined control sequence.") ∧
    (compile_latex_to_pdf envCompileFail ("resume_Jane_Roe")).files.tex = true ∧
    (compile_latex_to_pdf envCompileFail ("resume_Jane_Roe")).files.aux = false ∧
    (compile_latex_to_pdf envCompileFail ("resume_Jane_Roe")).files.log = false := by
  decide

/-- Claim C4: an edit with an unknown section, a missing required key, or
an `entry_index` that Python list indexing rejects is skipped without
raising: running `apply_ai_edits` on `e :: rest` equals running it on
`rest` alone, so the remaining edits are processed in order and the profile
is untouched by the skipped edit. -/
theorem apply_ai_edits_skips_and_continues (p : ResumeProfile)
    (e : SuggestedEdit) (rest : List SuggestedEdit)
    (h : edit_malformed_or_mistargeted p e = true) :
    apply_ai_edits p (e :: rest) = apply_ai_edits p rest := by
  unfold apply_ai_edits
  rw [List.foldl_cons, deepcopy_eq, applyEdit_skip_malformed p e h]

/-- An edit whose section is neither `summary` nor `experience`. -/
def badSectionEdit : SuggestedEdit :=
  { sectionKey := some ("skills"), entry_index := some 0,
    field := some ("skills"), original_text := some ("Python"),
    suggested_text := some ("Python3") }

/-- Witness for C4: an edit with section `"skills"` is skipped. -/
theorem apply_ai_edits_skips_and_continues_witness :
    apply_ai_edits exampleProfile [badSectionEdit] =
      apply_ai_edits exampleProfile [] :=
  apply_ai_edits_skips_and_continues exampleProfile badSectionEdit [] (by decide)

/-- Claim C5: the sanitizer's output always passes the escape recogniser —
every reserved character of the output is part of one complete escape
sequence of the table, so no reserved character is left unescaped and no
escape sequence is partially re-escaped by another rule — and on the spec's
example `"50% & more"` the `%` and `&` are each replaced exactly once. -/
theorem sanitize_for_latex_escapes_all (s : String) :
    wellEscaped (sanitize_for_latex s).data = true ∧
    sanitize_for_latex ("50% & more") = "50\\% \\& more" := by
  constructor
  · exact sanitize_wellEscaped_aux s.data
  · decide

/-- A template with one known and one unknown placeholder. -/
def unknownTpl : String := "Dear \x7bFULL_NAME\x7d: \x7bUNKNOWN_TOKEN\x7d"

/-- Counterexample to claim C6 as stated: on a template holding the unknown
token `{UNKNOWN_TOKEN}` next to the known `{FULL_NAME}`, the claim promises
an output with the known placeholder substituted and the unknown token left
in place — but `str.format` raises `KeyError`, so the call produces no
output at all (`none`). -/
theorem generate_resume_latex_unknown_raises :
    generate_resume_latex exampleProfile unknownTpl false = none := by
  decide

/-- Claim C6 amended: a template containing a placeholder token outside the
renderer's fixed mapping makes the whole substitution fail (`str.format`
raises `KeyError`); no composed source is produced, so the unknown token is
not left in the output. -/
theorem generate_resume_latex_unknown_fails (data : ResumeProfile)
    (tpl : String) (photoExists : Bool) (items : List FmtItem) (name : String)
    (hp : parseFmtA none tpl.data = some items)
    (hmem : FmtItem.fieldRef name ∈ items)
    (hmiss : resumePlaceholders photoExists data name = none) :
    generate_resume_latex data tpl photoExists = none := by
  unfold generate_resume_latex pyFormat
  rw [hp]
  exact renderFmt_missing items _ name hmem hmiss

/-- Witness for the amended C6 on the concrete template `{NOPE}`. -/
theorem generate_resume_latex_unknown_fails_witness :
    generate_resume_latex exampleProfile ("\x7bNOPE\x7d") false = none :=
  generate_resume_latex_unknown_fails exampleProfile ("\x7bNOPE\x7d") false
    [FmtItem.fieldRef ("NOPE")] ("NOPE") rfl (by decide) rfl

/-- Claim C7: `build_experience_section` returns the empty string for an
empty (or absent) experience list, and otherwise the section header followed
by exactly one rendered block per entry, joined in input order, and the
closing footer. -/
theorem build_experience_section_blocks (data : ResumeProfile) :
    build_experience_section data =
      if data.experience = [] then ""
      else
        "\\section*\x7bProfessional Experience\x7d\n\\begin\x7bitemize\x7d[leftmargin=0.15in, label=\x7b\x7d]\n"
          ++ String.join (data.experience.map renderExperienceEntry)
          ++ "\\end\x7bitemize\x7d\n\n" := by
  by_cases h : data.experience = []
  · simp [build_experience_section, h]
  · rw [if_neg h]
    unfold build_experience_section
    have hb : data.experience.isEmpty = false := by
      simpa [List.isEmpty_iff] using h
    rw [if_neg (by simp [hb])]
    rw [foldl_append_eq_join]

/-- An experience entry whose title holds a literal backslash. -/
def backslashEntry : ExperienceEntry :=
  { title := "C:\\Dev lead"
    company := "Acme"
    location := "NYC"
    dates := "2020"
    accomplishments := [] }

/-- Counterexample to claim C8 as stated: for an entry whose title holds a
backslash, the embedded title is not the sanitizer's output — the source
rewrites the backslash escape to `/` after sanitizing (line 325) — and the
sanitizer's output for the title occurs nowhere in the rendered fragment. -/
theorem experience_title_not_sanitizer_output :
    expEmbeddedTitle backslashEntry ≠ sanitize_for_latex backslashEntry.title ∧
    containsSub (sanitize_for_latex backslashEntry.title).data
      (renderExperienceEntry backslashEntry).data = false := by
  decide

/-- Claim C8 amended: in the rendered experience block, dates, company and
location are embedded exactly as the sanitizer's output; the title is
embedded as the sanitizer's output with every occurrence of the backslash
escape then replaced by `/`, and each accomplishment as the sanitizer's
output with every occurrence of the backslash-escape-plus-percent-escape
then replaced by the percent escape (lines 325 and 334). -/
theorem experience_fields_embedded_sanitized :
    (∀ entry : ExperienceEntry, ∃ u1 u2 u3 u4 u5 : String,
        renderExperienceEntry entry =
          u1 ++ pyReplace (sanitize_for_latex entry.title) ("\\textbackslash\x7b\x7d") ("/")
            ++ u2 ++ sanitize_for_latex entry.dates
            ++ u3 ++ sanitize_for_latex entry.company
            ++ u4 ++ sanitize_for_latex entry.location ++ u5) ∧
    (∀ (entry : ExperienceEntry) (a : String), a ∈ entry.accomplishments →
        ∃ v1 v2 : String,
          renderExperienceEntry entry =
            v1 ++ pyReplace (sanitize_for_latex a) ("\\textbackslash\x7b\x7d\\%") ("\\%") ++ v2) := by
  constructor
  · intro entry
    refine ⟨"  \\item\n    \\begin\x7btabular*\x7d\x7b\\textwidth\x7d\x7b@\x7b\\extracolsep\x7b\\fill\x7d\x7dl r\x7d\n      \\textbf\x7b\\large ",
      "\x7d & \x7b\\small ",
      "\x7d \\\\\n      \\textit\x7b\\small ",
      "\x7d & \\textit\x7b\\small ",
      "\x7d \\\\\n    \\end\x7btabular*\x7d\\vspace\x7b-2pt\x7d\n" ++ expAccBlock entry, ?_⟩
    simp [renderExperienceEntry, expTabular, expEmbeddedTitle, expEmbeddedDates,
      expEmbeddedCompany, expEmbeddedLocation, String.append_assoc]
  · intro entry a ha
    obtain ⟨l1, l2, hsplit⟩ := List.append_of_mem ha
    have hne : entry.accomplishments.isEmpty = false := by
      simp [List.isEmpty_iff]
      exact List.ne_nil_of_mem ha
    refine ⟨expTabular entry
        ++ "    \\begin\x7bitemize\x7d[leftmargin=0.2in, topsep=0pt, itemsep=-2pt]\n"
        ++ String.join (l1.map (fun x =>
             "      \\item \\small\x7b" ++ expEmbeddedAcc x ++ "\x7d\n"))
        ++ "      \\item \\small\x7b",
      "\x7d\n"
        ++ String.join (l2.map (fun x =>
             "      \\item \\small\x7b" ++ expEmbeddedAcc x ++ "\x7d\n"))
        ++ "    \\end\x7bitemize\x7d\n", ?_⟩
    unfold renderExperienceEntry expAccBlock
    rw [if_neg (by simp [hne])]
    rw [foldl_append_eq_join, hsplit]
    rw [List.map_append, string_join_append, List.map_cons, string_join_cons]
    unfold expEmbeddedAcc
    simp [String.append_assoc]

/-- Witness for the amended C8: the accomplishment `"Built X"` of the
example entry is embedded in the rendered fragment. -/
theorem experience_fields_embedded_sanitized_witness :
    ∃ v1 v2 : String,
      renderExperienceEntry exampleEntry =
        v1 ++ pyReplace (sanitize_for_latex ("Built X")) ("\\textbackslash\x7b\x7d\\%") ("\\%") ++ v2 :=
  experience_fields_embedded_sanitized.2 exampleEntry ("Built X") (by decide)

/-- Claim C9: `entry_index = -1` is not treated as out of range — Python
negative indexing makes the edit apply to the last experience entry,
replacing the first occurrence of `original_text` in its accomplishments. -/
theorem apply_ai_edits_negative_index (p : ResumeProfile) (e : SuggestedEdit)
    (orig sugg : String) (hne : p.experience ≠ [])
    (hs : e.sectionKey = some ("experience"))
    (hi : e.entry_index = some (-1))
    (ho : e.original_text = some orig)
    (ht : e.suggested_text = some sugg)
    (hmem : orig ∈ (p.experience.getLast hne).accomplishments) :
    apply_ai_edits p [e] =
      { p with
          experience :=
            p.experience.set (p.experience.length - 1)
              { p.experience.getLast hne with
                  accomplishments :=
                    replaceFirst (p.experience.getLast hne).accomplishments
                      orig sugg } } := by
  unfold apply_ai_edits
  rw [deepcopy_eq, List.foldl_cons, List.foldl_nil]
  unfold applyEdit
  rw [hs]
  simp [hi, ho, ht, pyGet_neg_one p.experience hne, hmem, pySet_neg_one]

/-- A second concrete experience entry (the last one in
`exampleProfile2`). -/
def exampleEntry2 : ExperienceEntry :=
  { title := "Senior Engineer"
    company := "Globex"
    location := "NYC"
    dates := "2024 --"
    accomplishments := ["Led Y", "Shipped Z"] }

/-- A profile with two experience entries. -/
def exampleProfile2 : ResumeProfile :=
  { exampleProfile with experience := [exampleEntry, exampleEntry2] }

/-- An experience edit addressed at index `-1`. -/
def negIndexEdit : SuggestedEdit :=
  { sectionKey := some ("experience"), entry_index := some (-1),
    field := some ("accomplishments"), original_text := some ("Shipped Z"),
    suggested_text := some ("Shipped Z at scale") }

/-- Witness for C9: with two experience entries, an `entry_index = -1` edit
rewrites the second entry's matching accomplishment. -/
theorem apply_ai_edits_negative_index_witness :
    apply_ai_edits exampleProfile2 [negIndexEdit] =
      { exampleProfile2 with
          experience :=
            [exampleEntry,
             { exampleEntry2 with
                 accomplishments := ["Led Y", "Shipped Z at scale"] }] } := by
  have h := apply_ai_edits_negative_index exampleProfile2 negIndexEdit
    ("Shipped Z") ("Shipped Z at scale") (by decide) rfl rfl rfl rfl (by decide)
  rw [h]
  decide

/-- Claim C10: `apply_ai_edits` is the identity on content when nothing
matches — for the empty edit list, or any list in which no edit's
`original_text` matches the current summary or any targeted accomplishment,
the result is deeply equal to the input. -/
theorem apply_ai_edits_identity_when_no_match (p : ResumeProfile)
    (edits : List SuggestedEdit)
    (h : ∀ e ∈ edits, editMatches p e = false) :
    apply_ai_edits p edits = p := by
  unfold apply_ai_edits
  rw [deepcopy_eq]
  revert h
  induction edits with
  | nil =>
    intro _
    rfl
  | cons e rest ih =>
    intro h
    rw [List.foldl_cons, applyEdit_no_match p e (h e (List.mem_cons_self e rest))]
    exact ih (fun x hx => h x (List.mem_cons_of_mem e hx))

/-- A summary edit whose `original_text` does not match the example
profile's summary. -/
def mismatchEdit : SuggestedEdit :=
  { sectionKey := some ("summary"), entry_index := some 0,
    field := some ("summary"), original_text := some ("Different text"),
    suggested_text := some ("New summary") }

/-- Witness for C10 on the spec's mismatch example: profile summary is
`"Old summary"`, the edit expects `"Different text"`, and the profile comes
back unchanged. -/
theorem apply_ai_edits_identity_when_no_match_witness :
    apply_ai_edits exampleProfile [mismatchEdit] = exampleProfile :=
  apply_ai_edits_identity_when_no_match exampleProfile [mismatchEdit] (by decide)
